import Mathlib

/-!
Verification model of the CCM test-cluster control bridge
(`test/ccm_bridge/src/bridge.hpp`).

The repository ships only the class declaration header; the member-function
bodies live in a translation unit that is not part of the source tree here.
Constants (`CLUSTER_NODE_LIMIT`, `DEFAULT_CLUSTER_PFX`,
`DEFAULT_CASSANDRA_VERSION`), signatures, and the documented aliases
(`kill_cluster` = `stop_cluster(true)`, `kill_node(n)` = `stop_node(n, true)`)
come from the header; every behavioural definition below is modelled from the
specification's description of the corresponding member function and says so
in its doc comment.  String manipulation is embedded as structural recursion
over the underlying character lists so that every definition evaluates.
-/

namespace CCM

/-- Node-status buckets reported by the external cluster-management tool,
mirroring the four lists of `ClusterStatus` in `bridge.hpp`. -/
inductive NodeState where
  | decommissioned : NodeState
  | down : NodeState
  | uninitialized : NodeState
  | up : NodeState
deriving DecidableEq, Repr

/-- Node status information for a cluster; shallow embedding of the
`ClusterStatus` struct of `bridge.hpp` (four address lists plus a total). -/
structure ClusterStatus where
  nodes_decommissioned : List String
  nodes_down : List String
  nodes_uninitialized : List String
  nodes_up : List String
  node_count : Nat
deriving DecidableEq, Repr

/-- The `ClusterStatus()` default constructor: empty lists, zero count. -/
def ClusterStatus.empty : ClusterStatus :=
  { nodes_decommissioned := []
    nodes_down := []
    nodes_uninitialized := []
    nodes_up := []
    node_count := 0 }

/-- `CLUSTER_NODE_LIMIT` from `bridge.hpp`: the node limit for a cluster. -/
def CLUSTER_NODE_LIMIT : Nat := 6

/-- `DEFAULT_CLUSTER_PFX` from `bridge.hpp`. -/
def DEFAULT_CLUSTER_PFX : String := "cpp-driver"

/-- Engine version as a structured numeric value.  Modelled from the spec:
"represent engine version as a structured (major, minor, patch) value". -/
structure CassVersion where
  major : Nat
  minor : Nat
  patch : Nat
deriving DecidableEq, Repr

/-- `DEFAULT_CASSANDRA_VERSION` from `bridge.hpp` (`CassVersion("3.4")`). -/
def DEFAULT_CASSANDRA_VERSION : CassVersion := { major := 3, minor := 4, patch := 0 }

/-- Render a `CassVersion` back to its dotted string form. -/
def version_string (v : CassVersion) : String :=
  toString v.major ++ "." ++ toString v.minor ++ "." ++ toString v.patch

/-- Numeric comparison of versions: lexicographic on the (major, minor,
patch) triple of numbers.  Modelled from the spec: "branch the Command
Builder on numeric comparison, never on raw version strings". -/
def version_ge (v w : CassVersion) : Bool :=
  (w.major < v.major) ||
    (w.major == v.major &&
      ((w.minor < v.minor) || (w.minor == v.minor && w.patch ≤ v.patch)))

/-- Split a character list at every occurrence of `sep`; executable
counterpart of `CCM::Bridge::explode` used by the status parser. -/
def split_on_char (sep : Char) : List Char → List (List Char)
  | [] => [[]]
  | c :: cs =>
    let rest := split_on_char sep cs
    if c = sep then
      [] :: rest
    else
      match rest with
      | [] => [[c]]
      | w :: ws => (c :: w) :: ws

/-- ASCII lower-casing of one character, the behaviour of
`CCM::Bridge::to_lower` on the tokens the status parser inspects. -/
def lower_char (c : Char) : Char :=
  if 65 ≤ c.toNat ∧ c.toNat ≤ 90 then Char.ofNat (c.toNat + 32) else c

/-- Lower-case a whole token. -/
def lower_chars (w : List Char) : List Char :=
  w.map lower_char

/-- Split a string into whitespace-separated tokens, dropping empty pieces;
this is the "tolerant of extra whitespace" tokenisation of the Status
Parser described by the spec. -/
def status_words (s : String) : List (List Char) :=
  (split_on_char ' ' s.data).filter (fun w => !w.isEmpty)

/-- Case-insensitive classification of a state token.  Modelled from the
spec: "an unrecognized state token is treated as `uninitialized` rather than
raising an error". -/
def classify_state_token (token : List Char) : NodeState :=
  let t := lower_chars token
  if t = "up".data then NodeState.up
  else if t = "down".data then NodeState.down
  else if t = "decommissioned".data then NodeState.decommissioned
  else NodeState.uninitialized

/-- Parse one line of the status listing.  Modelled from the spec: lines have
the shape `<node-name>: <STATE> (<ip-address>)`, or
`<node-name>: DECOMMISSIONED` with no address; any line not matching the
shape is skipped (`none`).  Returns the bucket and the recorded address
(the node name for an address-less decommissioned line). -/
def parse_status_line (s : String) : Option (NodeState × String) :=
  match status_words s with
  | [name, state] =>
    if name.getLast? = some ':' ∧ lower_chars state = "decommissioned".data then
      some (NodeState.decommissioned, String.mk name.dropLast)
    else
      none
  | [name, state, addr] =>
    if name.getLast? = some ':' ∧ addr.head? = some '(' ∧ addr.getLast? = some ')' then
      some (classify_state_token state, String.mk (addr.drop 1).dropLast)
    else
      none
  | _ => none

/-- Record one classified line into the snapshot, bumping `node_count`. -/
def record_status (st : ClusterStatus) (entry : NodeState × String) : ClusterStatus :=
  match entry.1 with
  | NodeState.decommissioned =>
    { st with nodes_decommissioned := st.nodes_decommissioned ++ [entry.2]
              node_count := st.node_count + 1 }
  | NodeState.down =>
    { st with nodes_down := st.nodes_down ++ [entry.2]
              node_count := st.node_count + 1 }
  | NodeState.uninitialized =>
    { st with nodes_uninitialized := st.nodes_uninitialized ++ [entry.2]
              node_count := st.node_count + 1 }
  | NodeState.up =>
    { st with nodes_up := st.nodes_up ++ [entry.2]
              node_count := st.node_count + 1 }

/-- Fold the per-line parser over a list of lines, starting from `st`. -/
def parse_status_lines_from (st : ClusterStatus) : List String → ClusterStatus
  | [] => st
  | l :: rest =>
    match parse_status_line l with
    | some entry => parse_status_lines_from (record_status st entry) rest
    | none => parse_status_lines_from st rest

/-- Split raw status output into its lines. -/
def status_text_lines (text : String) : List String :=
  (split_on_char '\n' text.data).map String.mk

/-- The Status Parser: raw multi-line text to a fresh `ClusterStatus`
snapshot.  Modelled from the spec: line-oriented, tolerant, skipping
malformed lines. -/
def parse_cluster_status (text : String) : ClusterStatus :=
  parse_status_lines_from ClusterStatus.empty (status_text_lines text)

/-- Cluster topology: per-datacenter node counts plus the TLS and
client-authentication flags, as described in the spec's data model. -/
structure ClusterTopology where
  data_center_one_nodes : Nat
  data_center_two_nodes : Nat
  is_ssl : Bool
  is_client_authentication : Bool
deriving DecidableEq, Repr

/-- A cluster known to the external cluster-management tool: its name and
the state of each of its nodes (slot `i + 1` holds `nodes[i]`). -/
structure CCMCluster where
  name : String
  nodes : List NodeState
deriving DecidableEq, Repr

/-- State of the external cluster-management tool: the available clusters
and the tool's single active cluster.  Modelled from the spec: "mirroring
the external tool's own single-active-cluster model". -/
structure CCMState where
  clusters : List CCMCluster
  active_ : Option String
deriving DecidableEq, Repr

/-- Tool state with no clusters. -/
def CCMState.empty : CCMState := { clusters := [], active_ := none }

/-- Names of the available clusters, as `get_available_clusters` reports. -/
def CCMState.available_names (t : CCMState) : List String :=
  t.clusters.map CCMCluster.name

/-- Append a freshly added (not yet started) node to the active cluster. -/
def CCMState.add_node_to_active (t : CCMState) : CCMState :=
  match t.active_ with
  | none => t
  | some nm =>
    { t with clusters := t.clusters.map (fun c =>
        if c.name = nm then { c with nodes := c.nodes ++ [NodeState.uninitialized] } else c) }

/-- The error taxonomy of `BridgeException`: a capacity error (no free node
slot) or a tool-reported failure. -/
inductive BridgeException where
  | capacity : BridgeException
  | toolFailure : String → BridgeException
deriving DecidableEq, Repr

/-- In-memory state of a `CCM::Bridge` instance: construction-time
configuration, the active cluster pointer, the node-slot table (slot
`i + 1` occupied iff `nodes_[i]`), and the stored topology. -/
structure BridgeState where
  cassandra_version_ : CassVersion
  use_git_ : Bool
  use_dse_ : Bool
  cluster_prefix_ : String
  host_ : String
  nodes_ : List Bool
  active_cluster_ : Option String
  topology_ : Option ClusterTopology
deriving DecidableEq, Repr

/-- A bridge constructed with all default arguments of the `Bridge`
constructor in `bridge.hpp`. -/
def default_bridge : BridgeState :=
  { cassandra_version_ := DEFAULT_CASSANDRA_VERSION
    use_git_ := false
    use_dse_ := false
    cluster_prefix_ := DEFAULT_CLUSTER_PFX
    host_ := "127.0.0.1"
    nodes_ := List.replicate CLUSTER_NODE_LIMIT false
    active_cluster_ := none
    topology_ := none }

/-- Generate the cluster name.  Modelled from the spec: "cluster name =
`<prefix>_<dc1>_<dc2>_nodes[_ssl][_auth]` (exact token order matters)".
The `cassandra_version` parameter mirrors the declared signature in
`bridge.hpp`; the spec's naming formula does not use it. -/
def generate_cluster_name (cluster_prefix_ : String) (cassandra_version : CassVersion)
    (data_center_one_nodes data_center_two_nodes : Nat)
    (is_ssl is_client_authentication : Bool) : String :=
  let name := cluster_prefix_ ++ "_" ++ toString data_center_one_nodes ++ "_" ++
    toString data_center_two_nodes ++ "_nodes"
  let name := if is_ssl then name ++ "_ssl" else name
  if is_client_authentication then name ++ "_auth" else name

/-- Generate the node name.  Modelled from the spec: "node name =
`node<slot>` using the 1-based slot number". -/
def generate_node_name (node : Nat) : String :=
  "node" ++ toString node

/-- Generate the nodes parameter for cluster creation from the two
datacenter counts (the "node-count string" of the spec). -/
def generate_cluster_nodes (data_center_one_nodes data_center_two_nodes : Nat) : String :=
  toString data_center_one_nodes ++ ":" ++ toString data_center_two_nodes

/-- `get_ip_pfx`: the host address up to and including its last dot,
so that node `n` lives at `<ip-prefix><n>`. -/
def get_ip_pfx (host : String) : String :=
  String.mk (((host.data.reverse).dropWhile (fun c => c ≠ '.')).reverse)

/-- The compatibility boundary for the update-configuration command's
argument shape.  Modelled from the spec: "whether the target engine
major.minor crosses a known compatibility boundary". -/
def COMPAT_BOUNDARY_VERSION : CassVersion := { major := 2, minor := 0, patch := 0 }

/-- Generate the cluster-creation command.  Modelled from the spec:
"cluster creation (topology → name + node-count string + version flags +
TLS/client-auth flags)"; `use_git` prepends `cassandra-` to the version for
a non-DSE engine, per the constructor documentation in `bridge.hpp`. -/
def generate_create_command (cassandra_version : CassVersion) (use_git use_dse : Bool)
    (name : String) (topology : ClusterTopology) : List String :=
  ["create", name, "-v",
    if use_git && !use_dse then "cassandra-" ++ version_string cassandra_version
    else version_string cassandra_version] ++
  (if use_dse then ["--dse"] else []) ++
  ["-n", generate_cluster_nodes topology.data_center_one_nodes topology.data_center_two_nodes] ++
  (if topology.is_ssl then ["--ssl"] else []) ++
  (if topology.is_client_authentication then ["--require_client_auth"] else [])

/-- Generate the update-configuration command used during cluster creation.
Modelled from the spec: a common stem plus a version-dependent argument
shape, selected by numeric comparison of the parsed (major, minor, patch)
value against the compatibility boundary — never by raw string compare. -/
def generate_create_updateconf_command (cassandra_version : CassVersion) : List String :=
  let base := ["updateconf", "--rt=10000", "read_request_timeout_in_ms:10000",
    "write_request_timeout_in_ms:10000", "request_timeout_in_ms:10000",
    "hinted_handoff_enabled:false"]
  if version_ge cassandra_version COMPAT_BOUNDARY_VERSION then
    base ++ ["cas_contention_timeout_in_ms:10000", "file_cache_size_in_mb:0"]
  else
    base ++ ["reduce_cache_sizes_at:0", "reduce_cache_capacity_to:0",
      "flush_largest_memtables_at:0", "index_interval:512"]

/-- Lowest free slot of the node-slot table, 1-based.  Modelled from the
spec: "allocates the next free slot (lowest free slot number)". -/
def lowest_free_slot : List Bool → Option Nat
  | [] => none
  | occupied :: rest =>
    if occupied then (lowest_free_slot rest).map (fun n => n + 1) else some 1

/-- `get_next_available_node`: the lowest free slot, or a capacity error
when no free slot remains (see `CLUSTER_NODE_LIMIT`). -/
def get_next_available_node (bs : BridgeState) : Except BridgeException Nat :=
  match lowest_free_slot bs.nodes_ with
  | some n => Except.ok n
  | none => Except.error BridgeException.capacity

/-- `add_node`: allocate the lowest free slot, build and issue the add
command, occupy the slot, and register the new (uninitialized) node with
the tool; fail with a capacity error — changing nothing — when no slot is
free.  Modelled from the spec's `add_node(data_center)` contract. -/
def add_node (bs : BridgeState) (tool : CCMState) (data_center : String) :
    BridgeState × CCMState × List (List String) × Except BridgeException Nat :=
  match lowest_free_slot bs.nodes_ with
  | none => (bs, tool, [], Except.error BridgeException.capacity)
  | some n =>
    let cmd := ["add", generate_node_name n,
      "-i", get_ip_pfx bs.host_ ++ toString n, "-b"] ++
      (if data_center = "" then [] else ["-d", data_center])
    ({ bs with nodes_ := bs.nodes_.set (n - 1) true },
     tool.add_node_to_active,
     [cmd],
     Except.ok n)

/-- Free the slot of an explicitly removed node.  Modelled from the spec's
node-slot lifecycle: "OCCUPIED ... remains occupied until the node is
explicitly removed", "DECOMMISSIONED/REMOVED → FREE". -/
def remove_node (bs : BridgeState) (node : Nat) : BridgeState :=
  { bs with nodes_ := bs.nodes_.set (node - 1) false }

/-- `create_cluster`: generate the topology-derived name; if a cluster of
that name already exists, switch to (activate) it; otherwise issue the
creation and configuration-update commands, reset the node-slot table to
all free, and store the topology.  Returns true ("created or switched").
Modelled from the spec's `create_cluster(topology)` contract. -/
def create_cluster (bs : BridgeState) (tool : CCMState)
    (data_center_one_nodes data_center_two_nodes : Nat)
    (is_ssl is_client_authentication : Bool) :
    BridgeState × CCMState × List (List String) × Bool :=
  let name := generate_cluster_name bs.cluster_prefix_ bs.cassandra_version_
    data_center_one_nodes data_center_two_nodes is_ssl is_client_authentication
  if name ∈ tool.available_names then
    ({ bs with active_cluster_ := some name },
     { tool with active_ := some name },
     [["switch", name]],
     true)
  else
    let topology : ClusterTopology :=
      { data_center_one_nodes := data_center_one_nodes
        data_center_two_nodes := data_center_two_nodes
        is_ssl := is_ssl
        is_client_authentication := is_client_authentication }
    ({ bs with active_cluster_ := some name
               nodes_ := List.replicate CLUSTER_NODE_LIMIT false
               topology_ := some topology },
     { clusters := tool.clusters ++
         [{ name := name
            nodes := List.replicate (data_center_one_nodes + data_center_two_nodes)
              NodeState.uninitialized }]
       active_ := some name },
     [generate_create_command bs.cassandra_version_ bs.use_git_ bs.use_dse_ name topology,
      generate_create_updateconf_command bs.cassandra_version_],
     true)

/-- Render the status line the external tool prints for one node, in the
format the spec documents: `<node-name>: <STATE> (<ip-address>)`, or
`<node-name>: DECOMMISSIONED` with no address. -/
def render_status_line (ip_pfx : String) (slot : Nat) : NodeState → String
  | NodeState.decommissioned => generate_node_name slot ++ ": DECOMMISSIONED"
  | NodeState.down =>
    generate_node_name slot ++ ": DOWN (" ++ ip_pfx ++ toString slot ++ ")"
  | NodeState.uninitialized =>
    generate_node_name slot ++ ": UNINITIALIZED (" ++ ip_pfx ++ toString slot ++ ")"
  | NodeState.up =>
    generate_node_name slot ++ ": UP (" ++ ip_pfx ++ toString slot ++ ")"

/-- Join lines with newlines. -/
def join_status_lines : List String → String
  | [] => ""
  | [l] => l
  | l :: rest => l ++ "\n" ++ join_status_lines rest

/-- The raw text the tool's status command prints for a node list. -/
def ccm_status_text (ip_pfx : String) (nodes : List NodeState) : String :=
  join_status_lines ((nodes.enum).map (fun p => render_status_line ip_pfx (p.1 + 1) p.2))

/-- Look a cluster up by name in the tool state. -/
def find_cluster (t : CCMState) (nm : String) : Option CCMCluster :=
  t.clusters.find? (fun c => c.name == nm)

/-- `cluster_status`: run the tool's status command for the active cluster
and parse the reply into a fresh snapshot.  Modelled from the spec's
status-query contract; with no active cluster the snapshot is empty. -/
def cluster_status (bs : BridgeState) (tool : CCMState) : ClusterStatus :=
  match tool.active_ with
  | none => ClusterStatus.empty
  | some nm =>
    match find_cluster tool nm with
    | none => ClusterStatus.empty
    | some c => parse_cluster_status (ccm_status_text (get_ip_pfx bs.host_) c.nodes)

/-- Retry budget of the readiness polls.  Modelled from the spec: "bounded
retry count"; the exact count is immaterial to the claims. -/
def CLUSTER_RETRIES : Nat := 100

/-- Fixed inter-attempt delay of the readiness polls, in milliseconds
(`msleep` granularity).  Modelled from the spec: "fixed delay". -/
def RETRY_DELAY_MS : Nat := 100

/-- Bounded retry loop of the readiness polls: try `check` at successive
attempt indices starting from `i` while fuel remains; stop at the first
success.  Returns the result and the number of status polls performed.
Modelled from the spec: "poll status repeatedly (bounded retry count with
a fixed inter-attempt delay) ... returns false on exhaustion rather than
raising". -/
def poll_status_from (check : Nat → Bool) : Nat → Nat → Bool × Nat
  | _, 0 => (false, 0)
  | i, Nat.succ fuel =>
    if check i then (true, 1)
    else
      let r := poll_status_from check (i + 1) fuel
      (r.1, r.2 + 1)

/-- All expected nodes satisfy the up predicate. -/
def cluster_up_check (st : ClusterStatus) : Bool :=
  st.nodes_up.length == st.node_count

/-- All expected nodes satisfy the down predicate. -/
def cluster_down_check (st : ClusterStatus) : Bool :=
  st.nodes_down.length == st.node_count

/-- `is_cluster_up`: poll until every node is up or the budget runs out.
`statusAt i` is the snapshot the `i`-th status query would parse. -/
def is_cluster_up (statusAt : Nat → ClusterStatus) : Bool :=
  (poll_status_from (fun i => cluster_up_check (statusAt i)) 0 CLUSTER_RETRIES).1

/-- Number of status polls `is_cluster_up` performs. -/
def is_cluster_up_polls (statusAt : Nat → ClusterStatus) : Nat :=
  (poll_status_from (fun i => cluster_up_check (statusAt i)) 0 CLUSTER_RETRIES).2

/-- `is_cluster_down`: poll until every node is down or the budget runs
out. -/
def is_cluster_down (statusAt : Nat → ClusterStatus) : Bool :=
  (poll_status_from (fun i => cluster_down_check (statusAt i)) 0 CLUSTER_RETRIES).1

/-- Number of status polls `is_cluster_down` performs. -/
def is_cluster_down_polls (statusAt : Nat → ClusterStatus) : Nat :=
  (poll_status_from (fun i => cluster_down_check (statusAt i)) 0 CLUSTER_RETRIES).2

/-- Node-level down check: the node's address is reported in `nodes_down`. -/
def is_node_down (bs : BridgeState) (statusAt : Nat → ClusterStatus) (node : Nat) : Bool :=
  (poll_status_from
    (fun i => (statusAt i).nodes_down.contains (get_ip_pfx bs.host_ ++ toString node))
    0 CLUSTER_RETRIES).1

/-- `stop_cluster(is_kill)`: issue the stop command — the forced-termination
variant when `is_kill` — then run the matching readiness poll.  Modelled
from the spec's `stop_cluster` contract.  The bridge state is unchanged. -/
def stop_cluster (bs : BridgeState) (statusAt : Nat → ClusterStatus) (is_kill : Bool) :
    BridgeState × List (List String) × Bool :=
  (bs, [["stop"] ++ (if is_kill then ["--not-gently"] else [])], is_cluster_down statusAt)

/-- `kill_cluster`: documented in `bridge.hpp` as "Alias for
stop_cluster(true)"; written out here as the forced-termination stop
followed by the down poll, to be compared against `stop_cluster`. -/
def kill_cluster (bs : BridgeState) (statusAt : Nat → ClusterStatus) :
    BridgeState × List (List String) × Bool :=
  (bs, [["stop", "--not-gently"]], is_cluster_down statusAt)

/-- `stop_node(node, is_kill)`: issue the per-node stop command — forced
when `is_kill` — then run the node-level down poll. -/
def stop_node (bs : BridgeState) (statusAt : Nat → ClusterStatus) (node : Nat) (is_kill : Bool) :
    BridgeState × List (List String) × Bool :=
  (bs, [[generate_node_name node, "stop"] ++ (if is_kill then ["--not-gently"] else [])],
   is_node_down bs statusAt node)

/-- `kill_node(node)`: documented in `bridge.hpp` as "Alias for
stop_node(node, true)"; written out as the forced per-node stop followed by
the node-level down poll. -/
def kill_node (bs : BridgeState) (statusAt : Nat → ClusterStatus) (node : Nat) :
    BridgeState × List (List String) × Bool :=
  (bs, [[generate_node_name node, "stop", "--not-gently"]], is_node_down bs statusAt node)

example : parse_status_line "node1: UP (127.0.0.1)" = some (NodeState.up, "127.0.0.1") := by
  decide

example : parse_status_line "node2: DECOMMISSIONED" = some (NodeState.decommissioned, "node2") := by
  decide

example : parse_status_line "node3: MOVING (127.0.0.3)" = some (NodeState.uninitialized, "127.0.0.3") := by
  decide

example : parse_status_line "garbage line with too many tokens here" = none := by
  decide

example :
    parse_cluster_status "node1: UP (127.0.0.1)\nnode2: DOWN (127.0.0.2)" =
      { nodes_decommissioned := []
        nodes_down := ["127.0.0.2"]
        nodes_uninitialized := []
        nodes_up := ["127.0.0.1"]
        node_count := 2 } := by
  decide

example :
    generate_cluster_name DEFAULT_CLUSTER_PFX DEFAULT_CASSANDRA_VERSION 1 0 false false =
      "cpp-driver_1_0_nodes" := by
  decide

example : get_ip_pfx "127.0.0.1" = "127.0.0." := by decide

example : lowest_free_slot [true, false, true, false, false, false] = some 2 := by decide

example :
    (cluster_status
      (create_cluster default_bridge CCMState.empty 2 1 false false).1
      (create_cluster default_bridge CCMState.empty 2 1 false false).2.1).node_count = 3 := by
  decide

/-! ## Helper lemmas about the status parser -/

/-- Total size of the four node sets of a snapshot. -/
def bucket_total (st : ClusterStatus) : Nat :=
  st.nodes_decommissioned.length + st.nodes_down.length +
    st.nodes_uninitialized.length + st.nodes_up.length

lemma record_status_node_count (st : ClusterStatus) (e : NodeState × String) :
    (record_status st e).node_count = st.node_count + 1 := by
  obtain ⟨b, s⟩ := e
  cases b <;> rfl

lemma record_status_bucket_total (st : ClusterStatus) (e : NodeState × String) :
    bucket_total (record_status st e) = bucket_total st + 1 := by
  obtain ⟨b, s⟩ := e
  cases b <;> simp [bucket_total, record_status] <;> omega

lemma parse_from_node_count (ls : List String) :
    ∀ st : ClusterStatus, (parse_status_lines_from st ls).node_count =
      st.node_count + (ls.filter (fun l => (parse_status_line l).isSome)).length := by
  induction ls with
  | nil => intro st; simp [parse_status_lines_from]
  | cons l rest ih =>
    intro st
    cases h : parse_status_line l with
    | none =>
      simp [parse_status_lines_from, h, List.filter_cons, ih]
    | some e =>
      simp [parse_status_lines_from, h, List.filter_cons, ih, record_status_node_count]
      omega

lemma parse_from_bucket_total (ls : List String) :
    ∀ st : ClusterStatus, bucket_total (parse_status_lines_from st ls) =
      bucket_total st + (ls.filter (fun l => (parse_status_line l).isSome)).length := by
  induction ls with
  | nil => intro st; simp [parse_status_lines_from]
  | cons l rest ih =>
    intro st
    cases h : parse_status_line l with
    | none =>
      simp [parse_status_lines_from, h, List.filter_cons, ih]
    | some e =>
      simp [parse_status_lines_from, h, List.filter_cons, ih, record_status_bucket_total]
      omega

lemma parse_from_skip_none (l : String) (h : parse_status_line l = none)
    (pre post : List String) :
    ∀ st, parse_status_lines_from st (pre ++ l :: post) =
      parse_status_lines_from st (pre ++ post) := by
  induction pre with
  | nil => intro st; simp [parse_status_lines_from, h]
  | cons p ps ih =>
    intro st
    cases hp : parse_status_line p <;> simp [parse_status_lines_from, hp, ih]

/-! ## Helper lemmas about slot allocation -/

lemma lowest_free_slot_none_of_full (ns : List Bool) (h : ∀ b ∈ ns, b = true) :
    lowest_free_slot ns = none := by
  induction ns with
  | nil => rfl
  | cons b rest ih =>
    have hb : b = true := h b (List.mem_cons_self b rest)
    subst hb
    have hr : lowest_free_slot rest = none :=
      ih (fun x hx => h x (List.mem_cons_of_mem _ hx))
    simp [lowest_free_slot, hr]

lemma lowest_free_slot_isSome_of_free (ns : List Bool) (h : false ∈ ns) :
    (lowest_free_slot ns).isSome = true := by
  induction ns with
  | nil => simp at h
  | cons b rest ih =>
    cases b with
    | false => simp [lowest_free_slot]
    | true =>
      have hf : false ∈ rest := by simpa using h
      have hr := ih hf
      cases hrr : lowest_free_slot rest with
      | none => rw [hrr] at hr; simp at hr
      | some m => simp [lowest_free_slot, hrr]

lemma lowest_free_slot_free (ns : List Bool) :
    ∀ n, lowest_free_slot ns = some n → 1 ≤ n ∧ ns[n - 1]? = some false := by
  induction ns with
  | nil => intro n h; simp [lowest_free_slot] at h
  | cons b rest ih =>
    intro n h
    cases b with
    | false =>
      simp [lowest_free_slot] at h
      subst h
      simp
    | true =>
      simp [lowest_free_slot] at h
      obtain ⟨m, hm, rfl⟩ := h
      obtain ⟨h1, h2⟩ := ih m hm
      refine ⟨by omega, ?_⟩
      have hmm : m + 1 - 1 = (m - 1) + 1 := by omega
      rw [hmm]
      simpa using h2

lemma lowest_free_slot_min (ns : List Bool) :
    ∀ n, lowest_free_slot ns = some n →
      ∀ m, 1 ≤ m → m < n → ns[m - 1]? = some true := by
  induction ns with
  | nil => intro n h; simp [lowest_free_slot] at h
  | cons b rest ih =>
    intro n h m hm1 hmn
    cases b with
    | false =>
      simp [lowest_free_slot] at h
      omega
    | true =>
      simp [lowest_free_slot] at h
      obtain ⟨k, hk, rfl⟩ := h
      rcases Nat.eq_or_lt_of_le hm1 with h1 | h1
      · rw [← h1]
        simp
      · have hm2 : m - 1 = (m - 2) + 1 := by omega
        rw [hm2]
        have := ih k hk (m - 1) (by omega) (by omega)
        simpa [show m - 1 - 1 = m - 2 by omega] using this

/-! ## Helper lemmas about strings and polling -/

/-- Executable lexicographic (character-by-character) comparison, the
"raw version string" ordering the spec warns against. -/
def chars_lt : List Char → List Char → Bool
  | [], [] => false
  | [], _ :: _ => true
  | _ :: _, [] => false
  | a :: as, b :: bs =>
    if a < b then true
    else if b < a then false
    else chars_lt as bs

/-- Lexicographic string comparison, on the underlying characters. -/
def string_lt_lex (a b : String) : Bool :=
  chars_lt a.data b.data

lemma string_append_data (a b : String) : (a ++ b).data = a.data ++ b.data := rfl

lemma string_ext_of_data (a b : String) (h : a.data = b.data) : a = b := by
  cases a; cases b
  exact congrArg String.mk h

lemma string_append_empty (s : String) : s ++ "" = s := by
  apply string_ext_of_data
  rw [string_append_data]
  show s.data ++ [] = s.data
  simp

lemma poll_status_from_true_iff (check : Nat → Bool) :
    ∀ (fuel start : Nat),
      ((poll_status_from check start fuel).1 = true ↔
        ∃ j, j < fuel ∧ check (start + j) = true) := by
  intro fuel
  induction fuel with
  | zero => intro start; simp [poll_status_from]
  | succ k ih =>
    intro start
    by_cases h : check start = true
    · constructor
      · intro _
        exact ⟨0, Nat.succ_pos k, by simpa using h⟩
      · intro _
        simp [poll_status_from, h]
    · constructor
      · intro ht
        have hrec : (poll_status_from check (start + 1) k).1 = true := by
          simpa [poll_status_from, h] using ht
        obtain ⟨j, hj, hcj⟩ := (ih (start + 1)).mp hrec
        refine ⟨j + 1, by omega, ?_⟩
        rw [show start + (j + 1) = start + 1 + j by omega]
        exact hcj
      · rintro ⟨j, hj, hcj⟩
        cases j with
        | zero => exact absurd (by simpa using hcj) h
        | succ i =>
          have hrec : (poll_status_from check (start + 1) k).1 = true := by
            refine (ih (start + 1)).mpr ⟨i, by omega, ?_⟩
            rw [show start + 1 + i = start + (i + 1) by omega]
            exact hcj
          simpa [poll_status_from, h] using hrec

lemma poll_status_from_polls_le (check : Nat → Bool) :
    ∀ (fuel start : Nat), (poll_status_from check start fuel).2 ≤ fuel := by
  intro fuel
  induction fuel with
  | zero => intro start; simp [poll_status_from]
  | succ k ih =>
    intro start
    by_cases h : check start = true
    · have heq : (poll_status_from check start (k + 1)).2 = 1 := by
        simp [poll_status_from, h]
      omega
    · have heq : (poll_status_from check start (k + 1)).2 =
          (poll_status_from check (start + 1) k).2 + 1 := by
        simp [poll_status_from, h]
      have := ih (start + 1)
      omega

lemma poll_status_from_early (check : Nat → Bool) :
    ∀ (fuel start j : Nat), j < fuel → check (start + j) = true →
      (poll_status_from check start fuel).2 ≤ j + 1 := by
  intro fuel
  induction fuel with
  | zero => intro start j hj hc; omega
  | succ k ih =>
    intro start j hj hc
    by_cases h : check start = true
    · have heq : (poll_status_from check start (k + 1)).2 = 1 := by
        simp [poll_status_from, h]
      omega
    · cases j with
      | zero => exact absurd (by simpa using hc) h
      | succ i =>
        have hrec := ih (start + 1) i (by omega)
          (by rw [show start + 1 + i = start + (i + 1) by omega]; exact hc)
        have heq : (poll_status_from check start (k + 1)).2 =
            (poll_status_from check (start + 1) k).2 + 1 := by
          simp [poll_status_from, h]
        omega

/-! ## Concrete states used by witnesses -/

/-- A bridge whose node-slot table is completely occupied. -/
def full_bridge : BridgeState :=
  { default_bridge with nodes_ := List.replicate CLUSTER_NODE_LIMIT true }

/-- The slot bookkeeping of a three-node cluster: slots 1 to 3 occupied. -/
def three_node_bridge : BridgeState :=
  { default_bridge with nodes_ := [true, true, true, false, false, false] }

/-- A status snapshot with one node, reported down. -/
def status_one_down : ClusterStatus :=
  { nodes_decommissioned := [], nodes_down := ["127.0.0.1"], nodes_uninitialized := [],
    nodes_up := [], node_count := 1 }

/-- A status snapshot with one node, reported up. -/
def status_one_up : ClusterStatus :=
  { nodes_decommissioned := [], nodes_down := [], nodes_uninitialized := [],
    nodes_up := ["127.0.0.1"], node_count := 1 }

/-- A status oracle: the node comes up on the third poll. -/
def demo_statusAt : Nat → ClusterStatus :=
  fun i => if i < 2 then status_one_down else status_one_up

/-- The snapshot obtained by querying the status immediately after a
`create_cluster` on a default bridge and a fresh tool state. -/
def post_create_status (dc1 dc2 : Nat) (ssl auth : Bool) : ClusterStatus :=
  cluster_status (create_cluster default_bridge CCMState.empty dc1 dc2 ssl auth).1
    (create_cluster default_bridge CCMState.empty dc1 dc2 ssl auth).2.1

lemma get_ip_pfx_default : get_ip_pfx "127.0.0.1" = "127.0.0." := by decide

lemma fresh_uninitialized_status (n : Nat) (h : n ≤ CLUSTER_NODE_LIMIT) :
    (parse_cluster_status (ccm_status_text "127.0.0."
        (List.replicate n NodeState.uninitialized))).node_count = n ∧
    (parse_cluster_status (ccm_status_text "127.0.0."
        (List.replicate n NodeState.uninitialized))).nodes_up = [] ∧
    (parse_cluster_status (ccm_status_text "127.0.0."
        (List.replicate n NodeState.uninitialized))).nodes_down.length +
      (parse_cluster_status (ccm_status_text "127.0.0."
        (List.replicate n NodeState.uninitialized))).nodes_uninitialized.length = n := by
  have h6 : n ≤ 6 := by simpa [CLUSTER_NODE_LIMIT] using h
  interval_cases n <;> decide

/-! ## The claims -/

/-- Claim C1: for every topology, if a cluster with the generated name
already exists among the available clusters, `create_cluster` activates
(switches to) that cluster instead of recreating it and returns true;
otherwise it issues the creation and configuration-update commands, resets
all node slots to free, stores the topology, and returns true. -/
theorem claim_C1 (bs : BridgeState) (tool : CCMState) (dc1 dc2 : Nat) (ssl auth : Bool) :
    (create_cluster bs tool dc1 dc2 ssl auth).2.2.2 = true ∧
    (if generate_cluster_name bs.cluster_prefix_ bs.cassandra_version_ dc1 dc2 ssl auth ∈
        tool.available_names then
      (create_cluster bs tool dc1 dc2 ssl auth).2.1.clusters = tool.clusters ∧
      (create_cluster bs tool dc1 dc2 ssl auth).2.1.active_ =
        some (generate_cluster_name bs.cluster_prefix_ bs.cassandra_version_ dc1 dc2 ssl auth) ∧
      (create_cluster bs tool dc1 dc2 ssl auth).1.active_cluster_ =
        some (generate_cluster_name bs.cluster_prefix_ bs.cassandra_version_ dc1 dc2 ssl auth) ∧
      (create_cluster bs tool dc1 dc2 ssl auth).2.2.1 =
        [["switch",
          generate_cluster_name bs.cluster_prefix_ bs.cassandra_version_ dc1 dc2 ssl auth]]
    else
      (create_cluster bs tool dc1 dc2 ssl auth).2.2.1 =
        [generate_create_command bs.cassandra_version_ bs.use_git_ bs.use_dse_
          (generate_cluster_name bs.cluster_prefix_ bs.cassandra_version_ dc1 dc2 ssl auth)
          { data_center_one_nodes := dc1
            data_center_two_nodes := dc2
            is_ssl := ssl
            is_client_authentication := auth },
         generate_create_updateconf_command bs.cassandra_version_] ∧
      (create_cluster bs tool dc1 dc2 ssl auth).1.nodes_ =
        List.replicate CLUSTER_NODE_LIMIT false ∧
      (create_cluster bs tool dc1 dc2 ssl auth).1.topology_ =
        some { data_center_one_nodes := dc1
               data_center_two_nodes := dc2
               is_ssl := ssl
               is_client_authentication := auth } ∧
      (create_cluster bs tool dc1 dc2 ssl auth).2.1.clusters = tool.clusters ++
        [{ name := generate_cluster_name bs.cluster_prefix_ bs.cassandra_version_
             dc1 dc2 ssl auth
           nodes := List.replicate (dc1 + dc2) NodeState.uninitialized }]) := by
  by_cases h : generate_cluster_name bs.cluster_prefix_ bs.cassandra_version_
      dc1 dc2 ssl auth ∈ tool.available_names
  · simp [create_cluster, h]
  · simp [create_cluster, h]

/-- Claim C2: for every topology with at most `CLUSTER_NODE_LIMIT` nodes,
creating a cluster on a fresh tool state and immediately querying the
status yields a snapshot whose `node_count` is `dc1 + dc2`, in which every
node sits in `nodes_uninitialized` or `nodes_down`, and in which no node is
in `nodes_up` — `start_cluster` has not been called. -/
theorem claim_C2 (dc1 dc2 : Nat) (ssl auth : Bool) (h : dc1 + dc2 ≤ CLUSTER_NODE_LIMIT) :
    (post_create_status dc1 dc2 ssl auth).node_count = dc1 + dc2 ∧
    (post_create_status dc1 dc2 ssl auth).nodes_up = [] ∧
    (post_create_status dc1 dc2 ssl auth).nodes_down.length +
      (post_create_status dc1 dc2 ssl auth).nodes_uninitialized.length = dc1 + dc2 := by
  have hps : post_create_status dc1 dc2 ssl auth =
      parse_cluster_status (ccm_status_text "127.0.0."
        (List.replicate (dc1 + dc2) NodeState.uninitialized)) := by
    simp [post_create_status, create_cluster, cluster_status, CCMState.empty,
      CCMState.available_names, find_cluster, default_bridge, get_ip_pfx_default,
      List.find?]
  rw [hps]
  exact fresh_uninitialized_status (dc1 + dc2) h

/-- Claim C2 witness: the (1, 0) topology. -/
theorem claim_C2_witness :
    1 + 0 ≤ CLUSTER_NODE_LIMIT ∧
    ((post_create_status 1 0 false false).node_count = 1 + 0 ∧
     (post_create_status 1 0 false false).nodes_up = [] ∧
     (post_create_status 1 0 false false).nodes_down.length +
       (post_create_status 1 0 false false).nodes_uninitialized.length = 1 + 0) :=
  ⟨by decide, claim_C2 1 0 false false (by decide)⟩

/-- Claim C3: when all `CLUSTER_NODE_LIMIT` slots are occupied, `add_node`
fails with the capacity error of `BridgeException` and leaves the bridge
state (slots, active cluster, stored topology) and the tool state
untouched, issuing no command. -/
theorem claim_C3 (bs : BridgeState) (tool : CCMState) (data_center : String)
    (hlen : bs.nodes_.length = CLUSTER_NODE_LIMIT)
    (hfull : ∀ b ∈ bs.nodes_, b = true) :
    add_node bs tool data_center =
      (bs, tool, [], Except.error BridgeException.capacity) := by
  simp [add_node, lowest_free_slot_none_of_full bs.nodes_ hfull]

/-- Claim C3 witness: a fully occupied bridge. -/
theorem claim_C3_witness :
    full_bridge.nodes_.length = CLUSTER_NODE_LIMIT ∧
    add_node full_bridge CCMState.empty "" =
      (full_bridge, CCMState.empty, [], Except.error BridgeException.capacity) :=
  ⟨by decide, claim_C3 full_bridge CCMState.empty "" (by decide) (by decide)⟩

/-- Claim C4: slot allocation is lowest-free-first.  Whenever a free slot
exists `add_node` succeeds; the allocated slot is free, every lower slot is
occupied, and only that slot becomes occupied.  In particular, after
removing node 2 of a three-node cluster the next `add_node` reuses slot 2
(not slot 4). -/
theorem claim_C4 :
    (∀ bs : BridgeState, false ∈ bs.nodes_ → (lowest_free_slot bs.nodes_).isSome = true) ∧
    (∀ (bs : BridgeState) (tool : CCMState) (data_center : String) (n : Nat),
        lowest_free_slot bs.nodes_ = some n →
        (add_node bs tool data_center).2.2.2 = Except.ok n ∧
        (add_node bs tool data_center).1.nodes_ = bs.nodes_.set (n - 1) true ∧
        bs.nodes_[n - 1]? = some false ∧
        (∀ m, 1 ≤ m → m < n → bs.nodes_[m - 1]? = some true)) ∧
    (add_node (remove_node three_node_bridge 2) CCMState.empty "").2.2.2 = Except.ok 2 := by
  refine ⟨?_, ?_, rfl⟩
  · intro bs h
    exact lowest_free_slot_isSome_of_free bs.nodes_ h
  · intro bs tool dc n h
    refine ⟨?_, ?_, (lowest_free_slot_free bs.nodes_ n h).2, lowest_free_slot_min bs.nodes_ n h⟩
    · simp [add_node, h]
    · simp [add_node, h]

/-- Claim C4 witness: the scenario of removing node 2 from a three-node
cluster and adding the next node. -/
theorem claim_C4_witness :
    ((add_node (remove_node three_node_bridge 2) CCMState.empty "").2.2.2 = Except.ok 2) ∧
    (add_node (remove_node three_node_bridge 2) CCMState.empty "").1.nodes_ =
      (remove_node three_node_bridge 2).nodes_.set 1 true :=
  ⟨claim_C4.2.2,
   (claim_C4.2.1 (remove_node three_node_bridge 2) CCMState.empty "" 2 (by decide)).2.1⟩

/-- Claim C5: the generated cluster name is
`<prefix>_<dc1>_<dc2>_nodes[_ssl][_auth]` in that token order, with `_ssl`
present exactly when TLS is enabled and `_auth` exactly when client
authentication is enabled; with the default prefix,
`create_cluster(1,0,false,false)` names the cluster `cpp-driver_1_0_nodes`;
node names are `node<n>` from the 1-based slot number. -/
theorem claim_C5 :
    (∀ (cluster_prefix_ : String) (v : CassVersion) (dc1 dc2 : Nat) (ssl auth : Bool),
        generate_cluster_name cluster_prefix_ v dc1 dc2 ssl auth =
          cluster_prefix_ ++ "_" ++ toString dc1 ++ "_" ++ toString dc2 ++ "_nodes" ++
            (if ssl then "_ssl" else "") ++ (if auth then "_auth" else "")) ∧
    generate_cluster_name DEFAULT_CLUSTER_PFX DEFAULT_CASSANDRA_VERSION 1 0 false false =
      "cpp-driver_1_0_nodes" ∧
    (∀ node : Nat, generate_node_name node = "node" ++ toString node) := by
  refine ⟨?_, by decide, fun node => rfl⟩
  intro p v dc1 dc2 ssl auth
  cases ssl <;> cases auth <;> simp [generate_cluster_name, string_append_empty]

/-- Claim C6: status parsing is a total deterministic function of the
input text: parsing the same text twice yields equal snapshots; every
line matching the expected shape lands in exactly one of the four node
sets (their sizes sum to `node_count`); and `node_count` equals the number
of lines successfully classified. -/
theorem claim_C6 (text : String) :
    parse_cluster_status text = parse_cluster_status text ∧
    (parse_cluster_status text).node_count =
      ((status_text_lines text).filter (fun l => (parse_status_line l).isSome)).length ∧
    (parse_cluster_status text).nodes_decommissioned.length +
        (parse_cluster_status text).nodes_down.length +
        (parse_cluster_status text).nodes_uninitialized.length +
        (parse_cluster_status text).nodes_up.length =
      (parse_cluster_status text).node_count := by
  refine ⟨rfl, ?_, ?_⟩
  · simpa [parse_cluster_status, ClusterStatus.empty] using
      parse_from_node_count (status_text_lines text) ClusterStatus.empty
  · have h1 := parse_from_node_count (status_text_lines text) ClusterStatus.empty
    have h2 := parse_from_bucket_total (status_text_lines text) ClusterStatus.empty
    simp [parse_cluster_status, ClusterStatus.empty, bucket_total] at h1 h2 ⊢
    omega

/-- Claim C7: a line of the expected shape whose state token is not a
recognized keyword is classified as uninitialized rather than rejected,
and a line that fails to match the shape is skipped without affecting the
parse of the remaining lines. -/
theorem claim_C7 :
    (∀ (s : String) (name state addr : List Char),
        status_words s = [name, state, addr] →
        name.getLast? = some ':' →
        addr.head? = some '(' →
        addr.getLast? = some ')' →
        lower_chars state ≠ "up".data →
        lower_chars state ≠ "down".data →
        lower_chars state ≠ "decommissioned".data →
        parse_status_line s =
          some (NodeState.uninitialized, String.mk (addr.drop 1).dropLast)) ∧
    (∀ (l : String) (pre post : List String), parse_status_line l = none →
        parse_status_lines_from ClusterStatus.empty (pre ++ l :: post) =
          parse_status_lines_from ClusterStatus.empty (pre ++ post)) := by
  constructor
  · intro s name state addr hw hn ha1 ha2 h1 h2 h3
    have hcl : classify_state_token state = NodeState.uninitialized := by
      simp [classify_state_token, h1, h2, h3]
    simp [parse_status_line, hw, hn, ha1, ha2, hcl]
  · intro l pre post h
    exact parse_from_skip_none l h pre post ClusterStatus.empty

/-- Claim C7 witness: an unknown `JOINING` token is bucketed as
uninitialized, and a malformed line is skipped. -/
theorem claim_C7_witness :
    parse_status_line "node1: JOINING (127.0.0.1)" =
      some (NodeState.uninitialized, "127.0.0.1") ∧
    parse_status_lines_from ClusterStatus.empty
        (["node1: UP (127.0.0.1)"] ++ "a malformed line" :: ["node2: DOWN (127.0.0.2)"]) =
      parse_status_lines_from ClusterStatus.empty
        (["node1: UP (127.0.0.1)"] ++ ["node2: DOWN (127.0.0.2)"]) := by
  constructor
  · have h := claim_C7.1 "node1: JOINING (127.0.0.1)"
      "node1:".data "JOINING".data "(127.0.0.1)".data
      (by decide) (by decide) (by decide) (by decide) (by decide) (by decide) (by decide)
    simpa using h
  · exact claim_C7.2 "a malformed line" ["node1: UP (127.0.0.1)"]
      ["node2: DOWN (127.0.0.2)"] (by decide)

/-- Claim C8: `is_cluster_up` and `is_cluster_down` poll at most
`CLUSTER_RETRIES` times, succeed exactly when some attempt within the
budget satisfies the all-up (respectively all-down) predicate, stop
polling as soon as an attempt succeeds, and simply return false — they
are total boolean functions, raising nothing — when the budget is
exhausted. -/
theorem claim_C8 (statusAt : Nat → ClusterStatus) :
    (is_cluster_up statusAt = true ↔
      ∃ i, i < CLUSTER_RETRIES ∧ cluster_up_check (statusAt i) = true) ∧
    (is_cluster_down statusAt = true ↔
      ∃ i, i < CLUSTER_RETRIES ∧ cluster_down_check (statusAt i) = true) ∧
    is_cluster_up_polls statusAt ≤ CLUSTER_RETRIES ∧
    is_cluster_down_polls statusAt ≤ CLUSTER_RETRIES ∧
    (∀ i, i < CLUSTER_RETRIES → cluster_up_check (statusAt i) = true →
      is_cluster_up_polls statusAt ≤ i + 1) ∧
    (∀ i, i < CLUSTER_RETRIES → cluster_down_check (statusAt i) = true →
      is_cluster_down_polls statusAt ≤ i + 1) := by
  refine ⟨?_, ?_, ?_, ?_, ?_, ?_⟩
  · simpa [is_cluster_up] using
      poll_status_from_true_iff (fun i => cluster_up_check (statusAt i)) CLUSTER_RETRIES 0
  · simpa [is_cluster_down] using
      poll_status_from_true_iff (fun i => cluster_down_check (statusAt i)) CLUSTER_RETRIES 0
  · simpa [is_cluster_up_polls] using
      poll_status_from_polls_le (fun i => cluster_up_check (statusAt i)) CLUSTER_RETRIES 0
  · simpa [is_cluster_down_polls] using
      poll_status_from_polls_le (fun i => cluster_down_check (statusAt i)) CLUSTER_RETRIES 0
  · intro i hi hc
    simpa [is_cluster_up_polls] using
      poll_status_from_early (fun i => cluster_up_check (statusAt i)) CLUSTER_RETRIES 0 i hi
        (by simpa using hc)
  · intro i hi hc
    simpa [is_cluster_down_polls] using
      poll_status_from_early (fun i => cluster_down_check (statusAt i)) CLUSTER_RETRIES 0 i hi
        (by simpa using hc)

/-- Claim C8 witness: with an oracle that reports the node up from the
third poll on, `is_cluster_up` returns true after at most three polls. -/
theorem claim_C8_witness :
    is_cluster_up demo_statusAt = true ∧ is_cluster_up_polls demo_statusAt ≤ 3 :=
  ⟨(claim_C8 demo_statusAt).1.mpr ⟨2, by decide, by decide⟩,
   (claim_C8 demo_statusAt).2.2.2.2.1 2 (by decide) (by decide)⟩

/-- Claim C9: the update-configuration command builder branches only on
the numeric (major, minor, patch) comparison against the compatibility
boundary: two versions on the same side produce the same argument shape,
and a version pair on which numeric and lexicographic-string ordering
disagree (10.0.0 versus the 2.0.0 boundary) follows the numeric
ordering. -/
theorem claim_C9 :
    (∀ v w : CassVersion,
        version_ge v COMPAT_BOUNDARY_VERSION = version_ge w COMPAT_BOUNDARY_VERSION →
        generate_create_updateconf_command v = generate_create_updateconf_command w) ∧
    string_lt_lex (version_string { major := 10, minor := 0, patch := 0 })
      (version_string COMPAT_BOUNDARY_VERSION) = true ∧
    version_ge { major := 10, minor := 0, patch := 0 } COMPAT_BOUNDARY_VERSION = true ∧
    generate_create_updateconf_command { major := 10, minor := 0, patch := 0 } =
      generate_create_updateconf_command COMPAT_BOUNDARY_VERSION ∧
    generate_create_updateconf_command { major := 10, minor := 0, patch := 0 } ≠
      generate_create_updateconf_command { major := 1, minor := 2, patch := 3 } := by
  refine ⟨?_, by decide, by decide, by decide, by decide⟩
  intro v w h
  cases hb : version_ge w COMPAT_BOUNDARY_VERSION <;>
    rw [hb] at h <;> simp [generate_create_updateconf_command, h, hb]

/-- Claim C9 witness: two versions on the same side of the boundary. -/
theorem claim_C9_witness :
    generate_create_updateconf_command { major := 3, minor := 4, patch := 0 } =
      generate_create_updateconf_command { major := 2, minor := 2, patch := 8 } :=
  claim_C9.1 { major := 3, minor := 4, patch := 0 } { major := 2, minor := 2, patch := 8 }
    (by decide)

/-- Claim C10: `kill_cluster()` behaves identically to
`stop_cluster(true)`, and `kill_node(n)` to `stop_node(n, true)`: same
commands issued, same state, same result. -/
theorem claim_C10 (bs : BridgeState) (statusAt : Nat → ClusterStatus) (node : Nat) :
    kill_cluster bs statusAt = stop_cluster bs statusAt true ∧
    kill_node bs statusAt node = stop_node bs statusAt node true :=
  ⟨rfl, rfl⟩

end CCM
